import Mathlib

/-!
Verification development for the Mordor vans dashboard (src/streamlit_app.py).

The dashboard loads a CSV table, coerces keyword-indicated columns to
numeric, computes a KPI mapping (`calculate_kpis`), renders four metric
slots, and stringifies the preview table (`make_display_safe`).

Shallow embedding conventions:
* A pandas cell is `Cell`: `missing` (NaN / None / NA), `text s`
  (object-dtype string) or `num q` (numeric value, modelled as `Rat`).
* A DataFrame is a `Table`: an ordered list of named columns.
* `pd.Series.replace('nan', None)` replaces a cell whose whole value is the
  string "nan" by a missing value (exact, whole-cell match).
* `pd.to_numeric(..., errors='coerce')` parses each cell independently and
  puts a missing value where parsing fails (`toNumericCell`).
* `Series.mean()` on a dropna-ed series of length > 0 is sum/length when
  every value is numeric and raises otherwise; a raise is modelled as
  `Option.none` propagating out of `calculate_kpis`.
* `Series.mode()` returns the non-missing values of maximal multiplicity,
  sorted ascending (`modeCells`); `.iloc[0]` is its head.
-/

namespace MordorVans

/-- One pandas cell: missing (NaN/None/NA), a string, or a number. -/
inductive Cell where
  | missing : Cell
  | text : String → Cell
  | num : Rat → Cell
deriving DecidableEq, Repr

/-- A named DataFrame column. -/
structure Column where
  name : String
  cells : List Cell
deriving DecidableEq, Repr

/-- A DataFrame: ordered sequence of named columns (rows aligned by index). -/
abbrev Table := List Column

/-- Is this cell a missing value?  (Mirrors pandas `isna`.) -/
def Cell.isMissing : Cell → Bool
  | .missing => true
  | _ => false

/-- `Series.dropna()`: the non-missing cells, in order. -/
def dropna (cs : List Cell) : List Cell :=
  cs.filter (fun c => !c.isMissing)

/-- `len(df)`: the row count (length of the index; all columns are aligned,
so we read it off the first column; 0 for a column-less frame). -/
def rowCount (T : Table) : Nat :=
  match T with
  | [] => 0
  | c :: _ => c.cells.length

/-- `df.empty`: true when either axis has length zero. -/
def tableEmpty (T : Table) : Bool :=
  T.length == 0 || rowCount T == 0

/-- `col in df.columns` / `df[col]`: first column with the given name. -/
def getCol (T : Table) (name : String) : Option Column :=
  T.find? (fun c => c.name == name)

/-- ASCII lower-casing of one character (Python `str.lower` restricted to
the ASCII column names that occur here). -/
def charLower (c : Char) : Char :=
  if 65 ≤ c.toNat && c.toNat ≤ 90 then Char.ofNat (c.toNat + 32) else c

/-- `col.lower()`-style lower-casing of a string. -/
def lowerStr (s : String) : String :=
  ⟨s.toList.map charLower⟩

/-- Substring test used for the numeric-indicator keyword match
(`indicator in col_lower`). -/
def strContains (hay needle : String) : Bool :=
  (List.range (hay.toList.length + 1)).any
    (fun i => needle.toList.isPrefixOf (hay.toList.drop i))

/-- The fixed numeric-indicator keyword list from the upload branch. -/
def numeric_indicators : List String :=
  ["age", "year", "egp", "days", "hours", "deliveries", "income", "salary", "allowance"]

/-- `any(indicator in col_lower for indicator in numeric_indicators)`. -/
def isNumericIndicated (name : String) : Bool :=
  numeric_indicators.any (fun ind => strContains (lowerStr name) ind)

/-- `Series.replace('nan', None)` on one cell: a cell whose entire textual
value is exactly "nan" becomes missing; everything else is untouched. -/
def replaceNanCell (c : Cell) : Cell :=
  match c with
  | .text s => if s = "nan" then .missing else .text s
  | c => c

/-- Value of a decimal digit. -/
def digitVal (c : Char) : Option Nat :=
  if c.isDigit then some (c.toNat - ('0').toNat) else none

/-- Parse a nonempty digit string as a natural number. -/
def parseDigits (cs : List Char) : Option Nat :=
  match cs with
  | [] => none
  | _ => cs.foldlM (fun acc c => (digitVal c).map (fun d => acc * 10 + d)) 0

/-- Strip leading and trailing whitespace from a character list. -/
def trimChars (cs : List Char) : List Char :=
  ((cs.dropWhile Char.isWhitespace).reverse.dropWhile Char.isWhitespace).reverse

/-- Numeric parsing as done by `pd.to_numeric` on a string cell: optional
sign, integer part, optional fractional part; surrounding whitespace is
tolerated; anything else fails. -/
def parseRat (s : String) : Option Rat :=
  match trimChars s.toList with
  | [] => none
  | cs =>
    let signed : Bool × List Char :=
      match cs with
      | '-' :: rest => (true, rest)
      | '+' :: rest => (false, rest)
      | cs => (false, cs)
    let intPart := signed.2.takeWhile Char.isDigit
    let rest := signed.2.dropWhile Char.isDigit
    match rest with
    | [] =>
      (parseDigits intPart).map (fun n => if signed.1 then -(n : Rat) else (n : Rat))
    | '.' :: frac =>
      if intPart.isEmpty && frac.isEmpty then none
      else if frac.all Char.isDigit then
        match parseDigits (intPart ++ frac) with
        | some n =>
          let q : Rat := (n : Rat) / ((10 : Rat) ^ frac.length)
          some (if signed.1 then -q else q)
        | none => none
      else none
    | _ => none

/-- `pd.to_numeric(cell, errors='coerce')`: numbers pass through, missing
stays missing, strings are parsed, unparseable strings become missing. -/
def toNumericCell (c : Cell) : Cell :=
  match c with
  | .missing => .missing
  | .num q => .num q
  | .text s =>
    match parseRat s with
    | some q => .num q
    | none => .missing

/-- The per-column coercion step of the upload branch: columns whose
lower-cased name contains a numeric-indicator keyword are coerced cell by
cell; other columns are untouched. -/
def coerceColumn (col : Column) : Column :=
  if isNumericIndicated col.name then
    { name := col.name, cells := col.cells.map toNumericCell }
  else col

/-- The two cleaning loops of the CSV upload branch: first replace the
literal "nan" by missing in every column, then numerically coerce the
keyword-indicated columns. -/
def uploadTransform (T : Table) : Table :=
  (T.map (fun c => { name := c.name, cells := c.cells.map replaceNanCell })).map coerceColumn

example : isNumericIndicated "Age (Years)" = true := by decide
example : parseRat "25" = some 25 := by decide
example : parseRat "abc" = none := by decide
example :
    uploadTransform [⟨"Age (Years)", [.text "25", .text "30", .text "abc", .text "40"]⟩] =
      [⟨"Age (Years)", [.num 25, .num 30, .missing, .num 40]⟩] := by decide

/-! ## KPI calculation (`calculate_kpis`, lines 190-233) -/

/-- The numeric value of a cell, if it is numeric. -/
def cellRat (c : Cell) : Option Rat :=
  match c with
  | .num q => some q
  | _ => none

/-- `Series.mean()` over an (already dropna-ed) list of cells: defined (sum
over length) when every cell is numeric; `none` models the `TypeError`
pandas raises on non-numeric objects. -/
def seriesMean (cs : List Cell) : Option Rat :=
  if cs.all (fun c => (cellRat c).isSome) then
    some ((cs.filterMap cellRat).sum / (cs.length : Rat))
  else none

/-- A total order on cells used for the ascending sort inside
`Series.mode()` (numbers before strings, each by their own order). -/
def cellLE (a b : Cell) : Bool :=
  match a, b with
  | .missing, _ => true
  | _, .missing => false
  | .num x, .num y => decide (x ≤ y)
  | .num _, .text _ => true
  | .text x, .text y => decide (x.data ≤ y.data)
  | .text _, .num _ => false

/-- Insert into a `cellLE`-sorted list. -/
def insertCell (x : Cell) : List Cell → List Cell
  | [] => [x]
  | y :: ys => if cellLE x y then x :: y :: ys else y :: insertCell x ys

/-- Insertion sort by `cellLE`. -/
def sortCells : List Cell → List Cell
  | [] => []
  | x :: xs => insertCell x (sortCells xs)

/-- `Series.mode()`: the non-missing values of maximal multiplicity, in
ascending order; empty when the series has no non-missing value. -/
def modeCells (cs : List Cell) : List Cell :=
  let valid := dropna cs
  let uniq := valid.dedup
  let mx := (uniq.map (fun v => valid.count v)).foldr Nat.max 0
  sortCells (uniq.filter (fun v => valid.count v == mx))

/-- The repeated numeric-KPI block of `calculate_kpis` (age, deliveries,
success rate, income): look the column up by exact name, drop missing
values, and when at least one value remains store the mean together with
the contributing-row count.  The outer `Option` is the error monad (a
pandas `TypeError` from `mean()` aborts `calculate_kpis`); the inner
`Option` is key presence in the returned dict. -/
def kpiPair (df : Table) (colName : String) : Option (Option (Rat × Nat)) :=
  match getCol df colName with
  | none => some none
  | some col =>
    let valid := dropna col.cells
    if valid.length > 0 then
      match seriesMean valid with
      | some m => some (some (m, valid.length))
      | none => none
    else some none

/-- The company block of `calculate_kpis`: when the "Company" column
exists, store the distinct non-missing count (`unique_companies`) together
with `top_company` (`mode().iloc[0]` when the mode list is nonempty, the
sentinel string "N/A" otherwise).  Both keys are set together. -/
def companyKpis (df : Table) : Option (Nat × Cell) :=
  match getCol df "Company" with
  | none => none
  | some col =>
    some ((dropna col.cells).dedup.length, (modeCells col.cells).headD (.text "N/A"))

/-- The KPI dict built by `calculate_kpis`.  Each field bundles a KPI value
with its contributing-row count, mirroring the paired dict keys of the
source (`avg_age`/`age_count`, `avg_deliveries`/`delivery_count`,
`success_rate`/`success_count`, `avg_income`/`income_count`,
`unique_companies`/`top_company`), which are always set together; a field
is `some` exactly when the corresponding keys are present in the dict. -/
structure KPIs where
  avg_age : Option (Rat × Nat)
  avg_deliveries : Option (Rat × Nat)
  success_rate : Option (Rat × Nat)
  avg_income : Option (Rat × Nat)
  companies : Option (Nat × Cell)
deriving DecidableEq, Repr

/-- `calculate_kpis` (lines 190-233): the four numeric KPI blocks in
source order, then the company block; `none` models an uncaught exception
from a `mean()` over non-numeric data. -/
def calculate_kpis (df : Table) : Option KPIs := do
  let age ← kpiPair df "Age (Years)"
  let del ← kpiPair df "Average number of deliveries per day: ______"
  let suc ← kpiPair df "Approximate delivery success rate (orders deliv..."
  let inc ← kpiPair df "Please mention your Fixed Monthly Pay (if any):..."
  pure ⟨age, del, suc, inc, companyKpis df⟩

/-! ## Display-safety transform (`make_display_safe`, lines 170-179) -/

/-- `astype(str)` on one cell.  A missing value stringifies to "nan" (the
float-NaN representation used by the frame's missing values); numbers are
rendered by their rational representation; strings are unchanged. -/
def cellToStr (c : Cell) : String :=
  match c with
  | .missing => "nan"
  | .text s => s
  | .num q => toString q

/-- One cell of `display_df[col].astype(str).replace('nan', '').replace('<NA>', '')`:
stringify, then blank out a cell whose whole value is "nan", then one whose
whole value is "&lt;NA&gt;" (both `Series.replace` calls match the entire cell,
not substrings). -/
def displaySafeCell (c : Cell) : Cell :=
  let s0 := cellToStr c
  let s1 := if s0 = "nan" then "" else s0
  .text (if s1 = "<NA>" then "" else s1)

/-- The value computed by `make_display_safe`: every column's cells pushed
through `displaySafeCell`, names untouched. -/
def make_display_safe (df : Table) : Table :=
  df.map (fun col => { name := col.name, cells := col.cells.map displaySafeCell })

/-- `df.copy()`: a fresh table with the same contents. -/
def copyTable (df : Table) : Table := df

/-- The two local variables of the `make_display_safe` body: the argument
`df` and the working copy `display_df`. -/
structure MDSState where
  df : Table
  display_df : Table
deriving DecidableEq, Repr

/-- Overwrite every column named `name` (`display_df[col] = ...`). -/
def setCol (T : Table) (name : String) (cells : List Cell) : Table :=
  T.map (fun c => if c.name = name then { name := c.name, cells := cells } else c)

/-- One iteration of the `for col in display_df.columns` loop: read the
named column of `display_df`, transform it, and assign it back.  Only the
`display_df` variable is written; `df` is never assigned. -/
def mdsStep (s : MDSState) (name : String) : MDSState :=
  match getCol s.display_df name with
  | some col => { s with display_df := setCol s.display_df name (col.cells.map displaySafeCell) }
  | none => s

/-- The imperative body of `make_display_safe` as explicit state passing:
start from `display_df = df.copy()`, loop over the column names, and
return the final state (result in `display_df`, the caller's `df` in
`df`). -/
def make_display_safe_proc (df : Table) : MDSState :=
  let init : MDSState := { df := df, display_df := copyTable df }
  (init.display_df.map (fun c => c.name)).foldl mdsStep init

/-- The `display_df`-only part of one loop iteration of
`make_display_safe` (what `mdsStep` does to the written variable). -/
def tStep (T : Table) (name : String) : Table :=
  match getCol T name with
  | some col => setCol T name (col.cells.map displaySafeCell)
  | none => T

/-! ## KPI display slots (lines 239-286) -/

/-- What the third metric column (`kpi_col3`) shows. -/
inductive Slot3 where
  | deliveries : Rat → Nat → Slot3
  | income : Rat → Nat → Slot3
  | coverage : Nat → Slot3
deriving DecidableEq, Repr

/-- What the fourth metric column (`kpi_col4`) shows. -/
inductive Slot4 where
  | success : Rat → Nat → Slot4
  | companies : Nat → Cell → Slot4
  | quality : Nat → Slot4
deriving DecidableEq, Repr

/-- `df.notna().sum().sum()`: total count of non-missing cells. -/
def totalAnswers (df : Table) : Nat :=
  (df.map (fun c => (dropna c.cells).length)).sum

/-- The `kpi_col3` branch: average deliveries per day if that KPI is
present, else average fixed income if present, else the generic coverage
count `len(df_view.columns)`. -/
def slot3 (df_view : Table) (k : KPIs) : Slot3 :=
  match k.avg_deliveries with
  | some p => .deliveries p.1 p.2
  | none =>
    match k.avg_income with
    | some p => .income p.1 p.2
    | none => .coverage df_view.length

/-- The `kpi_col4` branch: success rate if present, else the
unique-companies count (with the top company as sub-label) if present,
else the fallback total non-missing-cell count. -/
def slot4 (df_view : Table) (k : KPIs) : Slot4 :=
  match k.success_rate with
  | some p => .success p.1 p.2
  | none =>
    match k.companies with
    | some p => .companies p.1 p.2
    | none => .quality (totalAnswers df_view)

/-- The four rendered metric slots.  `slot1` is the "Total Responses"
metric `len(df_view)`; `slot2` is the average-age metric when present. -/
structure Dashboard where
  slot1 : Nat
  slot2 : Option (Rat × Nat)
  slot3 : Slot3
  slot4 : Slot4
deriving DecidableEq, Repr

/-- Rendering of the KPI row (lines 236-286): `df_view = df_all.copy()`,
compute the KPIs (an exception there aborts the render), then fill the
four slots. -/
def renderDashboard (df_all : Table) : Option Dashboard :=
  let df_view := copyTable df_all
  match calculate_kpis df_view with
  | none => none
  | some k => some ⟨rowCount df_view, k.avg_age, slot3 df_view k, slot4 df_view k⟩

/-! ## Upload interaction and post-load guards (lines 126-167) -/

/-- The error messages relevant to the modelled flow. -/
inductive Err where
  | unsupportedFormat : Err
  | noData : Err
  | invalidStructure : Err
deriving DecidableEq, Repr

/-- Outcome of one interaction cycle: the final table, the errors shown,
and whether `st.stop()` halted further processing. -/
structure RunResult where
  table : Table
  errors : List Err
  halted : Bool
deriving DecidableEq, Repr

/-- The empty frame `pd.DataFrame()`. -/
def emptyTable : Table := []

/-- The CSV read of the upload branch: all cells read as text (or missing),
then — only when the frame is non-empty — the two cleaning loops. -/
def readUploadCsv (content : Table) : Table :=
  if tableEmpty content then content else uploadTransform content

/-- Post-load normalization: trim whitespace from every column name. -/
def stripNames (T : Table) : Table :=
  T.map (fun c => { name := (⟨trimChars c.name.toList⟩ : String), cells := c.cells })

/-- The guards at lines 157-164: an empty frame reports "No data
available", then a frame with zero rows or zero columns reports "Invalid
data structure"; either one halts. -/
def postLoadCheck (df : Table) : Option Err :=
  if tableEmpty df then some Err.noData
  else if rowCount df == 0 || df.length == 0 then some Err.invalidStructure
  else none

/-- The upload interaction (lines 133-167): a file whose name ends in
".csv" is read and cleaned; any other name only produces the
unsupported-format error and leaves the frame empty (the content is never
read).  Then the post-load guards run; if they fire, processing halts with
the extra error; otherwise column names are stripped and the table is
kept. -/
def runUpload (fileName : String) (content : Table) : RunResult :=
  let isCsv := (".csv".toList).isSuffixOf fileName.toList
  let df := if isCsv then readUploadCsv content else emptyTable
  let errs := if isCsv then [] else [Err.unsupportedFormat]
  match postLoadCheck df with
  | some e => { table := df, errors := errs ++ [e], halted := true }
  | none => { table := stripNames df, errors := errs, halted := false }

/-! ## Concrete tables used in claims and witnesses -/

/-- The spec's demonstration upload: an "Age (Years)" column holding the
text values "25", "30", "abc", "40". -/
def demoAge : Table :=
  [⟨"Age (Years)", [.text "25", .text "30", .text "abc", .text "40"]⟩]

/-! ## Claims -/

/-- C1: in the CSV upload branch, every column whose lower-cased name
contains a numeric-indicator keyword is coerced to numeric cell by cell,
with each unparseable cell becoming a missing value and the load never
aborting (the coercion is a total per-cell map); on the demo upload whose
"Age (Years)" column holds ["25","30","abc","40"], the coerced column is
[25, 30, missing, 40] and the average-age KPI is (25+30+40)/3 = 95/3. -/
theorem C1_numeric_coercion :
    (∀ (T : Table) (i : Nat) (col : Column), T[i]? = some col →
        isNumericIndicated col.name = true →
        (uploadTransform T)[i]? =
          some { name := col.name,
                 cells := col.cells.map (fun c => toNumericCell (replaceNanCell c)) }) ∧
    (∀ s : String, parseRat s = none → toNumericCell (.text s) = .missing) ∧
    uploadTransform demoAge = [⟨"Age (Years)", [.num 25, .num 30, .missing, .num 40]⟩] ∧
    (calculate_kpis (uploadTransform demoAge)).map (fun k => k.avg_age) =
      some (some (95 / 3, 3)) := by
  refine ⟨?_, ?_, by decide, ?_⟩
  · intro T i col hi hind
    have h1 : (uploadTransform T)[i]? =
        some (coerceColumn { name := col.name, cells := col.cells.map replaceNanCell }) := by
      simp [uploadTransform, List.getElem?_map, hi]
    rw [h1]
    simp [coerceColumn, hind, List.map_map, Function.comp]
  · intro s hs
    simp [toNumericCell, hs]
  · have h : uploadTransform demoAge =
        [⟨"Age (Years)", [.num 25, .num 30, .missing, .num 40]⟩] := by decide
    rw [h]
    simp [calculate_kpis, kpiPair, companyKpis, getCol, List.find?, dropna, List.filter,
      Cell.isMissing, seriesMean, cellRat, List.filterMap]
    norm_num

/-- Witness for C1: the general coerced-column law and the per-cell
failure law evaluated at the demo column and the unparseable cell "abc". -/
theorem C1_numeric_coercion_witness :
    (uploadTransform demoAge)[0]? =
      some { name := "Age (Years)",
             cells := [Cell.text "25", Cell.text "30", Cell.text "abc", Cell.text "40"].map
               (fun c => toNumericCell (replaceNanCell c)) } ∧
    toNumericCell (.text "abc") = .missing :=
  ⟨C1_numeric_coercion.1 demoAge 0
      ⟨"Age (Years)", [.text "25", .text "30", .text "abc", .text "40"]⟩ (by decide) (by decide),
   C1_numeric_coercion.2.1 "abc" (by decide)⟩

/-- C10: both the upload-path replacement `replace('nan', None)` and the
display transform match the literal token "nan" by whole-cell equality
only: a cell that is exactly "nan" becomes missing on upload and renders
as "" in `make_display_safe`, while a cell merely containing "nan" as a
proper substring is left unchanged by both operations. -/
theorem C10_exact_nan_match :
    replaceNanCell (.text "nan") = .missing ∧
    displaySafeCell (.text "nan") = .text "" ∧
    displaySafeCell .missing = .text "" ∧
    (∀ s : String, strContains s "nan" = true → s ≠ "nan" →
      replaceNanCell (.text s) = .text s ∧ displaySafeCell (.text s) = .text s) := by
  refine ⟨by decide, by decide, by decide, ?_⟩
  intro s hsub hne
  have hna : s ≠ "<NA>" := by
    intro h
    rw [h] at hsub
    exact absurd hsub (by decide)
  refine ⟨by simp [replaceNanCell, hne], ?_⟩
  simp [displaySafeCell, cellToStr, hne, hna]

/-- Witness for C10: "banana" contains "nan" as a proper substring and is
left unchanged by both operations. -/
theorem C10_exact_nan_match_witness :
    replaceNanCell (.text "banana") = .text "banana" ∧
    displaySafeCell (.text "banana") = .text "banana" :=
  C10_exact_nan_match.2.2.2 "banana" (by decide) (by decide)

/-- C7: an uploaded file whose name does not end in ".csv" produces a
fixed outcome that does not depend on the file content (the content is
never read): the table stays empty (no partial load), the
unsupported-format error is reported (followed by the resulting no-data
error), and the interaction halts. -/
theorem C7_non_csv_rejected :
    ∀ (fileName : String) (content : Table),
      (".csv".toList).isSuffixOf fileName.toList = false →
      runUpload fileName content =
        { table := emptyTable, errors := [Err.unsupportedFormat, Err.noData], halted := true } := by
  intro name T h
  simp only [runUpload, h]
  simp [postLoadCheck, emptyTable, tableEmpty, rowCount]

/-- Witness for C7: uploading "data.xlsx" with the demo content. -/
theorem C7_non_csv_rejected_witness :
    runUpload "data.xlsx" demoAge =
      { table := emptyTable, errors := [Err.unsupportedFormat, Err.noData], halted := true } :=
  C7_non_csv_rejected "data.xlsx" demoAge (by decide)

/-- C6: when the loaded table has zero rows or zero columns (for example
a header-only CSV upload), the post-load guard reports the terminal
no-data error, and the upload interaction halts with exactly that error
and no retry. -/
theorem C6_empty_data_halts :
    ∀ (df : Table), rowCount df = 0 ∨ df = [] →
      postLoadCheck df = some Err.noData ∧
      ∀ fileName : String, (".csv".toList).isSuffixOf fileName.toList = true →
        (runUpload fileName df).halted = true ∧
        (runUpload fileName df).errors = [Err.noData] := by
  intro df h
  have he : tableEmpty df = true := by
    rcases h with h | h
    · simp [tableEmpty, h]
    · simp [h, tableEmpty, rowCount]
  refine ⟨by simp [postLoadCheck, he], ?_⟩
  intro name hcsv
  simp only [runUpload, hcsv]
  simp [readUploadCsv, he, postLoadCheck]

/-- Witness for C6: a header-only CSV (one column, zero rows) uploaded as
"data.csv". -/
theorem C6_empty_data_halts_witness :
    postLoadCheck [⟨"Age (Years)", ([] : List Cell)⟩] = some Err.noData ∧
    (runUpload "data.csv" [⟨"Age (Years)", ([] : List Cell)⟩]).halted = true ∧
    (runUpload "data.csv" [⟨"Age (Years)", ([] : List Cell)⟩]).errors = [Err.noData] :=
  ⟨(C6_empty_data_halts [⟨"Age (Years)", []⟩] (Or.inl (by decide))).1,
   (C6_empty_data_halts [⟨"Age (Years)", []⟩] (Or.inl (by decide))).2 "data.csv" (by decide)⟩

/-- Decomposition of a successful `calculate_kpis` run into its five
blocks. -/
lemma calculate_kpis_fields (df : Table) (k : KPIs) (hk : calculate_kpis df = some k) :
    kpiPair df "Age (Years)" = some k.avg_age ∧
    kpiPair df "Average number of deliveries per day: ______" = some k.avg_deliveries ∧
    kpiPair df "Approximate delivery success rate (orders deliv..." = some k.success_rate ∧
    kpiPair df "Please mention your Fixed Monthly Pay (if any):..." = some k.avg_income ∧
    k.companies = companyKpis df := by
  unfold calculate_kpis at hk
  simp only [bind, Option.bind_eq_some, pure, Option.some.injEq] at hk
  obtain ⟨age, hage, del, hdel, suc, hsuc, inc, hinc, hk⟩ := hk
  subst hk
  exact ⟨hage, hdel, hsuc, hinc, rfl⟩

/-- A numeric KPI block only stores a value when its column exists and
retains at least one non-missing cell after `dropna`. -/
lemma kpiPair_present (df : Table) (name : String) (p : Rat × Nat)
    (h : kpiPair df name = some (some p)) :
    ∃ col, getCol df name = some col ∧ dropna col.cells ≠ [] := by
  unfold kpiPair at h
  cases hc : getCol df name with
  | none => rw [hc] at h; simp at h
  | some col =>
    rw [hc] at h
    refine ⟨col, rfl, ?_⟩
    intro hd
    simp [hd] at h

/-- The company block stores its pair exactly when the "Company" column
exists. -/
lemma companyKpis_isSome (df : Table) :
    (companyKpis df).isSome = (getCol df "Company").isSome := by
  unfold companyKpis
  cases hc : getCol df "Company" <;> simp

/-- C4: when the "Age (Years)" column is absent, or exists with every
value missing, the age block of `calculate_kpis` completes without raising
and omits the average-age key, and any KPI dict the function returns has
no average-age entry (no NaN, no zero). -/
theorem C4_avg_age_omitted :
    ∀ (df : Table),
      (getCol df "Age (Years)" = none ∨
        ∃ col, getCol df "Age (Years)" = some col ∧ dropna col.cells = []) →
      kpiPair df "Age (Years)" = some none ∧
      ∀ k, calculate_kpis df = some k → k.avg_age = none := by
  intro df h
  have hp : kpiPair df "Age (Years)" = some none := by
    rcases h with h | ⟨col, hc, hd⟩
    · simp [kpiPair, h]
    · simp [kpiPair, hc, hd]
  refine ⟨hp, ?_⟩
  intro k hk
  have hage := (calculate_kpis_fields df k hk).1
  rw [hp] at hage
  exact (Option.some.inj hage).symm

/-- Witness for C4: a one-row table whose "Age (Years)" column is all
missing. -/
theorem C4_avg_age_omitted_witness :
    kpiPair [⟨"Age (Years)", [Cell.missing]⟩] "Age (Years)" = some none ∧
    (⟨none, none, none, none, none⟩ : KPIs).avg_age = none :=
  ⟨(C4_avg_age_omitted [⟨"Age (Years)", [Cell.missing]⟩]
      (Or.inr ⟨⟨"Age (Years)", [Cell.missing]⟩, by decide, by decide⟩)).1,
   (C4_avg_age_omitted [⟨"Age (Years)", [Cell.missing]⟩]
      (Or.inr ⟨⟨"Age (Years)", [Cell.missing]⟩, by decide, by decide⟩)).2
      ⟨none, none, none, none, none⟩ (by decide)⟩

/-- The table falsifying C2 as stated: a "Company" column whose only value
is missing. -/
def TceC2 : Table := [⟨"Company", [Cell.missing]⟩]

/-- Counterexample to C2 as stated: on a table whose "Company" column has
no non-missing value at all, `calculate_kpis` nevertheless stores the
`top_company` key (with the sentinel "N/A") and the `unique_companies` key
(with 0), although the column has no mode and no non-missing value — so
"top company present only when the column has at least one mode" and
"every KPI key present only if its source column has at least one
non-missing value" both fail. -/
theorem C2_kpi_presence_counterexample :
    (calculate_kpis TceC2).map (fun k => k.companies) = some (some (0, .text "N/A")) ∧
    (getCol TceC2 "Company").map (fun c => modeCells c.cells) = some [] ∧
    (getCol TceC2 "Company").map (fun c => dropna c.cells) = some [] := by
  decide

/-- C2 (amended): in any dict returned by `calculate_kpis`, each numeric
KPI key (average age, average deliveries, success rate, average income,
each paired with its count) is present only if its source column exists
and has at least one non-missing value; the `unique_companies` and
`top_company` keys are present exactly when the "Company" column exists
(when the column has no mode, `top_company` holds the sentinel "N/A"
rather than being omitted). -/
theorem C2_kpi_presence :
    ∀ (df : Table) (k : KPIs), calculate_kpis df = some k →
      (∀ p, k.avg_age = some p →
        ∃ col, getCol df "Age (Years)" = some col ∧ dropna col.cells ≠ []) ∧
      (∀ p, k.avg_deliveries = some p →
        ∃ col, getCol df "Average number of deliveries per day: ______" = some col ∧
          dropna col.cells ≠ []) ∧
      (∀ p, k.success_rate = some p →
        ∃ col, getCol df "Approximate delivery success rate (orders deliv..." = some col ∧
          dropna col.cells ≠ []) ∧
      (∀ p, k.avg_income = some p →
        ∃ col, getCol df "Please mention your Fixed Monthly Pay (if any):..." = some col ∧
          dropna col.cells ≠ []) ∧
      ((k.companies).isSome = (getCol df "Company").isSome) := by
  intro df k hk
  obtain ⟨hage, hdel, hsuc, hinc, hcomp⟩ := calculate_kpis_fields df k hk
  refine ⟨?_, ?_, ?_, ?_, ?_⟩
  · intro p hp; exact kpiPair_present df _ p (by rw [hage, hp])
  · intro p hp; exact kpiPair_present df _ p (by rw [hdel, hp])
  · intro p hp; exact kpiPair_present df _ p (by rw [hsuc, hp])
  · intro p hp; exact kpiPair_present df _ p (by rw [hinc, hp])
  · rw [hcomp]; exact companyKpis_isSome df

/-- Witness for C2 (amended): a one-row table with a "Company" column;
the company keys are present and the column exists. -/
theorem C2_kpi_presence_witness :
    ((⟨none, none, none, none, some (1, .text "A")⟩ : KPIs).companies).isSome =
      (getCol [⟨"Company", [Cell.text "A"]⟩] "Company").isSome :=
  (C2_kpi_presence [⟨"Company", [Cell.text "A"]⟩]
      ⟨none, none, none, none, some (1, .text "A")⟩ (by decide)).2.2.2.2

/-- C8: the "Total Responses" metric of every successfully rendered
dashboard equals the row count of the loaded table, whatever the other
KPI keys are. -/
theorem C8_total_responses :
    ∀ (df : Table) (d : Dashboard), renderDashboard df = some d → d.slot1 = rowCount df := by
  intro df d h
  simp only [renderDashboard, copyTable] at h
  cases hk : calculate_kpis df with
  | none => rw [hk] at h; exact absurd h (by simp)
  | some k =>
    rw [hk] at h
    obtain rfl := Option.some.inj h
    rfl

/-- Witness for C8: a concrete one-row table rendered end to end. -/
theorem C8_total_responses_witness :
    (⟨1, none, .coverage 1, .companies 1 (.text "A")⟩ : Dashboard).slot1 =
      rowCount [⟨"Company", [Cell.text "A"]⟩] :=
  C8_total_responses [⟨"Company", [Cell.text "A"]⟩]
    ⟨1, none, .coverage 1, .companies 1 (.text "A")⟩ (by decide)

/-- C5: the display slot selection follows the exact priority chains of
`kpi_col3` and `kpi_col4`: deliveries before income before the coverage
count (number of columns), and success rate before the company count
before the fallback total of non-missing cells. -/
theorem C5_slot_priority :
    ∀ (df : Table) (k : KPIs),
      (∀ p, k.avg_deliveries = some p → slot3 df k = .deliveries p.1 p.2) ∧
      (k.avg_deliveries = none → ∀ p, k.avg_income = some p → slot3 df k = .income p.1 p.2) ∧
      (k.avg_deliveries = none → k.avg_income = none → slot3 df k = .coverage df.length) ∧
      (∀ p, k.success_rate = some p → slot4 df k = .success p.1 p.2) ∧
      (k.success_rate = none → ∀ p, k.companies = some p → slot4 df k = .companies p.1 p.2) ∧
      (k.success_rate = none → k.companies = none → slot4 df k = .quality (totalAnswers df)) := by
  intro df k
  refine ⟨?_, ?_, ?_, ?_, ?_, ?_⟩
  · intro p hp; simp [slot3, hp]
  · intro hd p hp; simp [slot3, hd, hp]
  · intro hd hi; simp [slot3, hd, hi]
  · intro p hp; simp [slot4, hp]
  · intro hs p hp; simp [slot4, hs, hp]
  · intro hs hc; simp [slot4, hs, hc]

/-- Witness for C5: each of the six branches evaluated on concrete KPI
dicts over the demo table. -/
theorem C5_slot_priority_witness :
    slot3 demoAge ⟨none, some (5, 2), some (9, 3), some (4, 1), some (2, .text "A")⟩ =
      .deliveries 5 2 ∧
    slot3 demoAge ⟨none, none, none, some (4, 1), some (2, .text "A")⟩ = .income 4 1 ∧
    slot3 demoAge ⟨none, none, none, none, none⟩ = .coverage demoAge.length ∧
    slot4 demoAge ⟨none, some (5, 2), some (9, 3), some (4, 1), some (2, .text "A")⟩ =
      .success 9 3 ∧
    slot4 demoAge ⟨none, none, none, some (4, 1), some (2, .text "A")⟩ =
      .companies 2 (.text "A") ∧
    slot4 demoAge ⟨none, none, none, none, none⟩ = .quality (totalAnswers demoAge) :=
  ⟨(C5_slot_priority demoAge _).1 (5, 2) rfl,
   (C5_slot_priority demoAge _).2.1 rfl (4, 1) rfl,
   (C5_slot_priority demoAge _).2.2.1 rfl rfl,
   (C5_slot_priority demoAge _).2.2.2.1 (9, 3) rfl,
   (C5_slot_priority demoAge _).2.2.2.2.1 rfl (2, .text "A") rfl,
   (C5_slot_priority demoAge _).2.2.2.2.2 rfl rfl⟩

/-- Every output cell of the display transform is text and differs from
both replaced null-marker tokens. -/
lemma displaySafeCell_shape (c : Cell) :
    ∃ s, displaySafeCell c = .text s ∧ s ≠ "nan" ∧ s ≠ "<NA>" := by
  unfold displaySafeCell
  by_cases h1 : cellToStr c = "nan"
  · exact ⟨"", by simp [h1], by decide, by decide⟩
  · by_cases h2 : cellToStr c = "<NA>"
    · exact ⟨"", by simp [h1, h2], by decide, by decide⟩
    · exact ⟨cellToStr c, by simp [h1, h2], h1, h2⟩

/-- The display transform is idempotent at the cell level. -/
lemma displaySafeCell_idem (c : Cell) :
    displaySafeCell (displaySafeCell c) = displaySafeCell c := by
  obtain ⟨s, hs, h1, h2⟩ := displaySafeCell_shape c
  rw [hs]
  simp [displaySafeCell, cellToStr, h1, h2]

/-- C3: `make_display_safe` is idempotent
(`make_display_safe (make_display_safe T) = make_display_safe T` for every
table), and every cell of its result is text-typed with neither of the
literal null-marker tokens "nan" and "&lt;NA&gt;" remaining as a cell value. -/
theorem C3_display_safety :
    ∀ (T : Table),
      make_display_safe (make_display_safe T) = make_display_safe T ∧
      ∀ col ∈ make_display_safe T, ∀ c ∈ col.cells,
        ∃ s, c = .text s ∧ s ≠ "nan" ∧ s ≠ "<NA>" := by
  intro T
  constructor
  · simp [make_display_safe, List.map_map, Function.comp, displaySafeCell_idem]
  · intro col hcol c hc
    simp only [make_display_safe, List.mem_map] at hcol
    obtain ⟨col0, _, rfl⟩ := hcol
    simp only [List.mem_map] at hc
    obtain ⟨c0, _, rfl⟩ := hc
    exact displaySafeCell_shape c0

/-- Witness for C3: the cell-shape clause evaluated on a concrete
transformed table holding a missing value, a literal "nan", ordinary text
and a number. -/
theorem C3_display_safety_witness :
    ∃ s, (Cell.text "banana") = .text s ∧ s ≠ "nan" ∧ s ≠ "<NA>" :=
  (C3_display_safety [⟨"c", [.missing, .text "nan", .text "banana", .num 3]⟩]).2
    ⟨"c", [.text "", .text "", .text "banana", .text "3"]⟩ (by decide)
    (.text "banana") (by decide)

/-- One loop iteration of the `make_display_safe` body writes only the
`display_df` variable. -/
lemma mdsStep_as_tStep (s : MDSState) (n : String) :
    mdsStep s n = { df := s.df, display_df := tStep s.display_df n } := by
  unfold mdsStep tStep
  cases getCol s.display_df n <;> rfl

/-- The whole loop of the `make_display_safe` body leaves the `df`
variable untouched and acts on `display_df` alone. -/
lemma foldl_mdsStep (names : List String) (s : MDSState) :
    names.foldl mdsStep s = { df := s.df, display_df := names.foldl tStep s.display_df } := by
  induction names generalizing s with
  | nil => rfl
  | cons n rest ih => rw [List.foldl_cons, List.foldl_cons, mdsStep_as_tStep, ih]

/-- A column lookup misses exactly when no column bears the name. -/
lemma getCol_eq_none_iff (A : Table) (n : String) :
    getCol A n = none ↔ ∀ c ∈ A, c.name ≠ n := by
  unfold getCol
  rw [List.find?_eq_none]
  constructor
  · intro h c hc
    have := h c hc
    simpa using this
  · intro h c hc
    simpa using h c hc

/-- A lookup that misses the front part of an appended table continues in
the back part. -/
lemma getCol_append_of_none (A B : Table) (n : String) (h : getCol A n = none) :
    getCol (A ++ B) n = getCol B n := by
  unfold getCol at *
  induction A with
  | nil => simp
  | cons a A ih =>
    rw [List.find?_eq_none] at h
    have ha : (a.name == n) = false := by
      have := h a (by simp)
      simpa using this
    rw [List.cons_append, List.find?_cons_of_neg _ (by simp [ha]), ih]
    rw [List.find?_eq_none]
    intro c hc
    exact h c (by simp [hc])

/-- Assigning a column name that occurs nowhere leaves the table as it
was. -/
lemma setCol_of_no_match (A : Table) (n : String) (cs : List Cell)
    (h : ∀ c ∈ A, c.name ≠ n) : setCol A n cs = A := by
  unfold setCol
  induction A with
  | nil => rfl
  | cons a A ih =>
    rw [List.map_cons]
    rw [if_neg (h a (by simp))]
    rw [ih (fun c hc => h c (by simp [hc]))]

/-- Column assignment distributes over appended tables. -/
lemma setCol_append (A B : Table) (n : String) (cs : List Cell) :
    setCol (A ++ B) n cs = setCol A n cs ++ setCol B n cs := by
  unfold setCol
  exact List.map_append _ _ _

/-- Main loop invariant: folding the per-name step over the names of the
unprocessed suffix, starting from a table whose processed head holds no
such name, transforms exactly that suffix. -/
lemma tStep_fold (post pre : Table)
    (hpre : ∀ c ∈ post, getCol pre c.name = none)
    (hnodup : (post.map (fun c => c.name)).Nodup) :
    (post.map (fun c => c.name)).foldl tStep (pre ++ post) = pre ++ make_display_safe post := by
  induction post generalizing pre with
  | nil => simp [make_display_safe]
  | cons c rest ih =>
    rw [List.map_cons, List.foldl_cons]
    have hpc : getCol pre c.name = none := hpre c (by simp)
    have hrest_ne : ∀ d ∈ rest, d.name ≠ c.name := by
      intro d hd heq
      rw [List.map_cons, List.nodup_cons] at hnodup
      exact hnodup.1 (heq ▸ List.mem_map_of_mem (fun x => x.name) hd)
    have hstep : tStep (pre ++ c :: rest) c.name =
        pre ++ ({ name := c.name, cells := c.cells.map displaySafeCell } : Column) :: rest := by
      unfold tStep
      rw [getCol_append_of_none _ _ _ hpc]
      have hc : getCol (c :: rest) c.name = some c := by
        unfold getCol
        rw [List.find?_cons_of_pos _ (by simp)]
      rw [hc]
      show setCol (pre ++ c :: rest) c.name (c.cells.map displaySafeCell) =
        pre ++ ({ name := c.name, cells := c.cells.map displaySafeCell } : Column) :: rest
      rw [setCol_append]
      rw [setCol_of_no_match pre c.name _ ((getCol_eq_none_iff pre c.name).mp hpc)]
      congr 1
      unfold setCol
      rw [List.map_cons, if_pos rfl]
      congr 1
      exact setCol_of_no_match rest c.name _ hrest_ne
    rw [hstep]
    have hassoc : pre ++ ({ name := c.name, cells := c.cells.map displaySafeCell } : Column) :: rest =
        (pre ++ [{ name := c.name, cells := c.cells.map displaySafeCell }]) ++ rest := by
      simp
    rw [hassoc]
    have hp : ∀ d ∈ rest,
        getCol (pre ++ [({ name := c.name, cells := c.cells.map displaySafeCell } : Column)]) d.name = none := by
      intro d hd
      rw [getCol_eq_none_iff]
      intro e he heq
      rcases List.mem_append.mp he with h1 | h2
      · exact ((getCol_eq_none_iff pre d.name).mp (hpre d (by simp [hd]))) e h1 heq
      · simp at h2
        subst h2
        exact hrest_ne d hd (by simpa using heq.symm)
    have hn : (rest.map (fun c => c.name)).Nodup := by
      rw [List.map_cons, List.nodup_cons] at hnodup
      exact hnodup.2
    rw [ih (pre ++ [({ name := c.name, cells := c.cells.map displaySafeCell } : Column)]) hp hn]
    simp [make_display_safe]

/-- C9: the loaded table is never mutated after ingestion.  The imperative
body of `make_display_safe` — `display_df = df.copy()` followed by the
per-column assignment loop — leaves its argument `df` exactly as it was
and returns the fresh transformed copy, for every table with the unique
column labels `read_csv` guarantees; `calculate_kpis` is embedded as a
pure function of the table (it only reads), so it cannot mutate its
input. -/
theorem C9_no_mutation :
    ∀ (df : Table), (df.map (fun c => c.name)).Nodup →
      (make_display_safe_proc df).df = df ∧
      (make_display_safe_proc df).display_df = make_display_safe df := by
  intro df hnodup
  unfold make_display_safe_proc copyTable
  rw [foldl_mdsStep]
  refine ⟨rfl, ?_⟩
  have := tStep_fold df [] (by intro c hc; rfl) hnodup
  simpa using this

/-- Witness for C9: the demo table run through the imperative body. -/
theorem C9_no_mutation_witness :
    (make_display_safe_proc demoAge).df = demoAge ∧
    (make_display_safe_proc demoAge).display_df = make_display_safe demoAge :=
  C9_no_mutation demoAge (by decide)

end MordorVans
